import Mathlib

/-!
Verification of the ray-primitive intersection layer of the CUDA path tracer
(`src/intersections.h`). Floating-point scalars are modelled as exact
rationals; where the source relies on IEEE special values (division by zero
in the box slab test) an extended type `EF` with infinities and NaN is used.
C++ reference output parameters are modelled by passing the caller's values
in and returning the (possibly updated) values in a `Hit` record.
-/

/-- Rational 3-vector, modelling `glm::vec3`. -/
structure Vec3 where
  x : ℚ
  y : ℚ
  z : ℚ
deriving DecidableEq

/-- Rational 4-vector, modelling `glm::vec4`. -/
structure Vec4 where
  x : ℚ
  y : ℚ
  z : ℚ
  w : ℚ
deriving DecidableEq

/-- Column-major 4x4 rational matrix, modelling `glm::mat4` (c0..c3 are the
columns). -/
structure Mat4 where
  c0 : Vec4
  c1 : Vec4
  c2 : Vec4
  c3 : Vec4
deriving DecidableEq

/-- Componentwise vector addition. -/
def vadd (a b : Vec3) : Vec3 := ⟨a.x + b.x, a.y + b.y, a.z + b.z⟩

/-- Componentwise vector subtraction. -/
def vsub (a b : Vec3) : Vec3 := ⟨a.x - b.x, a.y - b.y, a.z - b.z⟩

/-- Vector negation. -/
def vneg (a : Vec3) : Vec3 := ⟨-a.x, -a.y, -a.z⟩

/-- Scalar multiplication of a vector. -/
def vsmul (q : ℚ) (v : Vec3) : Vec3 := ⟨q * v.x, q * v.y, q * v.z⟩

/-- Dot product. -/
def vdot (a b : Vec3) : ℚ := a.x * b.x + a.y * b.y + a.z * b.z

/-- Homogeneous point (w = 1) from a 3-vector, as in `glm::vec4(v, 1.0f)`. -/
def point4 (v : Vec3) : Vec4 := ⟨v.x, v.y, v.z, 1⟩

/-- Homogeneous direction (w = 0) from a 3-vector, as in `glm::vec4(v, 0.0f)`. -/
def dir4 (v : Vec3) : Vec4 := ⟨v.x, v.y, v.z, 0⟩

/-- Square root on rationals: exact on squares of rationals, an unspecified
nonnegative approximation elsewhere.  Models `sqrt` / the lengths taken by
glm. -/
def ratSqrt (q : ℚ) : ℚ := Rat.sqrt q

/-- Euclidean length, modelling `glm::length`. -/
def glmLength (v : Vec3) : ℚ := ratSqrt (vdot v v)

/-- Normalization, modelling `glm::normalize` (division by a zero length is
modelled by rational division, which yields 0). -/
def glmNormalize (v : Vec3) : Vec3 :=
  let l := glmLength v
  ⟨v.x / l, v.y / l, v.z / l⟩

/-- Ray with world-space origin and direction, modelling `Ray`. -/
structure Ray where
  origin : Vec3
  direction : Vec3
deriving DecidableEq

/-- Placement descriptor of one primitive; the fields are the ones
`intersections.h` reads from `Geom` (declared in the absent
`sceneStructs.h`): the object-to-world transform, its inverse, and the
inverse transpose. -/
structure Geom where
  transform : Mat4
  inverseTransform : Mat4
  invTranspose : Mat4
deriving DecidableEq

/-- Result of one intersection test: the returned scalar together with the
final values of the three by-reference output parameters. -/
structure Hit where
  t : ℚ
  point : Vec3
  normal : Vec3
  outside : Bool
deriving DecidableEq

/-- Matrix-vector product dropping the 4th component, modelling
`multiplyMV` (glm is column-major: `m * v = v.x*c0 + v.y*c1 + v.z*c2 + v.w*c3`). -/
def multiplyMV (m : Mat4) (v : Vec4) : Vec3 :=
  ⟨m.c0.x * v.x + m.c1.x * v.y + m.c2.x * v.z + m.c3.x * v.w,
   m.c0.y * v.x + m.c1.y * v.y + m.c2.y * v.z + m.c3.y * v.w,
   m.c0.z * v.x + m.c1.z * v.y + m.c2.z * v.z + m.c3.z * v.w⟩

/-- Point at parameter `t` on ray `r`, modelling `getPointOnRay`:
`r.origin + (t - .0001f) * glm::normalize(r.direction)`. -/
def getPointOnRay (r : Ray) (t : ℚ) : Vec3 :=
  vadd r.origin (vsmul (t - 1/10000) (glmNormalize r.direction))

/-- Identity 4x4 matrix. -/
def idMat4 : Mat4 := ⟨⟨1,0,0,0⟩, ⟨0,1,0,0⟩, ⟨0,0,1,0⟩, ⟨0,0,0,1⟩⟩

/-- Identity placement. -/
def idGeom : Geom := ⟨idMat4, idMat4, idMat4⟩

/-- Zero vector. -/
def vzero : Vec3 := ⟨0, 0, 0⟩

/-- Implicit field A, modelling `csg1SDF`:
`x^4 - 5 x^2 + y^4 - 5 y^2 + z^4 - 5 z^2 + 11.8`. -/
def csg1SDF (p : Vec3) : ℚ :=
  p.x * p.x * p.x * p.x - 5 * (p.x * p.x)
    + p.y * p.y * p.y * p.y - 5 * (p.y * p.y)
    + p.z * p.z * p.z * p.z - 5 * (p.z * p.z) + 59/5

/-- Implicit field B, modelling `csg2SDF` with k = 5, a = 0.95 = 19/20,
b = 0.5 = 1/2. -/
def csg2SDF (p : Vec3) : ℚ :=
  let k : ℚ := 5
  let a : ℚ := 19/20
  let b : ℚ := 1/2
  let x2 := p.x * p.x
  let y2 := p.y * p.y
  let z2 := p.z * p.z
  (x2 + y2 + z2 - a*k*k) * (x2 + y2 + z2 - a*k*k)
    - b * ((p.z - k)*(p.z - k) - 2*p.x*p.x) * ((p.z + k)*(p.z + k) - 2*p.y*p.y)

/-- Fine-refinement loop of the marcher (`for (int i = 0; i < 10; i++)` body
of `csg1Raytrace`/`csg2Raytrace`, which share this code verbatim): step size
`SMALLSTEPSIZE = 0.02 = 1/50`; on `distance < 0.001` step back once and
return `t`; after the fuel runs out return the sentinel 0. -/
def marchFine (f : Vec3 → ℚ) (cam ray : Vec3) : Nat → ℚ → ℚ
  | 0, _ => 0
  | n + 1, t =>
    if f (vadd cam (vsmul t ray)) < 1/1000 then t - 1/50
    else marchFine f cam ray n (t + 1/50)

/-- Coarse-search loop of the marcher (`for (int i = 0; i < 700; i++)` body
of `csg1Raytrace`/`csg2Raytrace`): step size `BIGSTEPSIZE = 0.1 = 1/10`; on
`distance < 0.001` step back once and run the fine loop with 10 steps;
after the fuel runs out return the sentinel 0. -/
def marchCoarse (f : Vec3 → ℚ) (cam ray : Vec3) : Nat → ℚ → ℚ
  | 0, _ => 0
  | n + 1, t =>
    if f (vadd cam (vsmul t ray)) < 1/1000 then marchFine f cam ray 10 (t - 1/10)
    else marchCoarse f cam ray n (t + 1/10)

/-- Sphere-tracing root finder for field A, modelling `csg1Raytrace`.
The `maxdist` parameter is unused by the source, and the by-reference
`outside` parameter is never assigned, so it is returned unchanged. -/
def csg1Raytrace (cam ray : Vec3) (maxdist : ℚ) (outside : Bool) : ℚ × Bool :=
  (marchCoarse csg1SDF cam ray 700 0, outside)

/-- Sphere-tracing root finder for field B, modelling `csg2Raytrace`. -/
def csg2Raytrace (cam ray : Vec3) (maxdist : ℚ) (outside : Bool) : ℚ × Bool :=
  (marchCoarse csg2SDF cam ray 700 0, outside)

/-- Modelled from the spec: `EPSILON` is declared in the absent
`utilities.h`; the spec only says it is "a small fixed epsilon" used by the
central-difference gradient.  The concrete value is irrelevant to every
property proved here. -/
def EPSILON : ℚ := 1/100000

/-- Central-difference gradient normal for field A, modelling `getCsg1Normal`. -/
def getCsg1Normal (p : Vec3) : Vec3 :=
  glmNormalize
    ⟨csg1SDF ⟨p.x + EPSILON, p.y, p.z⟩ - csg1SDF ⟨p.x - EPSILON, p.y, p.z⟩,
     csg1SDF ⟨p.x, p.y + EPSILON, p.z⟩ - csg1SDF ⟨p.x, p.y - EPSILON, p.z⟩,
     csg1SDF ⟨p.x, p.y, p.z + EPSILON⟩ - csg1SDF ⟨p.x, p.y, p.z - EPSILON⟩⟩

/-- Central-difference gradient normal for field B, modelling `getCsg2Normal`. -/
def getCsg2Normal (p : Vec3) : Vec3 :=
  glmNormalize
    ⟨csg2SDF ⟨p.x + EPSILON, p.y, p.z⟩ - csg2SDF ⟨p.x - EPSILON, p.y, p.z⟩,
     csg2SDF ⟨p.x, p.y + EPSILON, p.z⟩ - csg2SDF ⟨p.x, p.y - EPSILON, p.z⟩,
     csg2SDF ⟨p.x, p.y, p.z + EPSILON⟩ - csg2SDF ⟨p.x, p.y, p.z - EPSILON⟩⟩

/-- Orchestration wrapper for field A, modelling `csg1IntersectionTest`:
transforms the ray into object space (direction not renormalized), runs the
marcher, and unconditionally writes the hit point and gradient normal. -/
def csg1IntersectionTest (surface : Geom) (r : Ray)
    (point0 normal0 : Vec3) (outside0 : Bool) : Hit :=
  let pt := multiplyMV surface.inverseTransform (point4 r.origin)
  let dir := multiplyMV surface.inverseTransform (dir4 r.direction)
  let res := csg1Raytrace pt dir 100 outside0
  let t := res.1
  let outside := res.2
  let objPt := vadd pt (vsmul t dir)
  let ip := multiplyMV surface.transform (point4 objPt)
  let nrm := glmNormalize (multiplyMV surface.invTranspose (dir4 (getCsg1Normal objPt)))
  ⟨t, ip, if outside then nrm else vneg nrm, outside⟩

/-- Orchestration wrapper for field B, modelling `csg2IntersectionTest`. -/
def csg2IntersectionTest (surface : Geom) (r : Ray)
    (point0 normal0 : Vec3) (outside0 : Bool) : Hit :=
  let pt := multiplyMV surface.inverseTransform (point4 r.origin)
  let dir := multiplyMV surface.inverseTransform (dir4 r.direction)
  let res := csg2Raytrace pt dir 100 outside0
  let t := res.1
  let outside := res.2
  let objPt := vadd pt (vsmul t dir)
  let ip := multiplyMV surface.transform (point4 objPt)
  let nrm := glmNormalize (multiplyMV surface.invTranspose (dir4 (getCsg2Normal objPt)))
  ⟨t, ip, if outside then nrm else vneg nrm, outside⟩

/-- Count of coarse-phase and fine-phase field evaluations performed by the
fine loop of the marcher (cost model of `marchFine`: one evaluation per
iteration entered). -/
def marchFineEvals (f : Vec3 → ℚ) (cam ray : Vec3) : Nat → ℚ → Nat
  | 0, _ => 0
  | n + 1, t =>
    if f (vadd cam (vsmul t ray)) < 1/1000 then 1
    else 1 + marchFineEvals f cam ray n (t + 1/50)

/-- Cost model of `marchCoarse`: first component counts coarse-phase field
evaluations, second counts fine-phase field evaluations. -/
def marchCoarseEvals (f : Vec3 → ℚ) (cam ray : Vec3) : Nat → ℚ → Nat × Nat
  | 0, _ => (0, 0)
  | n + 1, t =>
    if f (vadd cam (vsmul t ray)) < 1/1000 then
      (1, marchFineEvals f cam ray 10 (t - 1/10))
    else
      let rest := marchCoarseEvals f cam ray n (t + 1/10)
      (1 + rest.1, rest.2)

/-- Extended float value for the box slab computation, where the source
divides by a possibly-zero direction component with the guard commented
out: a finite rational, an IEEE infinity, or NaN. -/
inductive EF where
  | fin (q : ℚ)
  | pinf
  | ninf
  | nan
deriving DecidableEq

/-- Strict comparison on extended floats (IEEE semantics: any comparison
with NaN is false). -/
def EF.lt : EF → EF → Bool
  | .fin a, .fin b => decide (a < b)
  | .fin _, .pinf => true
  | .fin _, _ => false
  | .ninf, .fin _ => true
  | .ninf, .pinf => true
  | .ninf, _ => false
  | .pinf, _ => false
  | .nan, _ => false

/-- Non-strict comparison on extended floats (IEEE semantics: any
comparison with NaN is false). -/
def EF.le : EF → EF → Bool
  | .fin a, .fin b => decide (a ≤ b)
  | .fin _, .pinf => true
  | .fin _, _ => false
  | .ninf, .nan => false
  | .ninf, _ => true
  | .pinf, .pinf => true
  | .pinf, _ => false
  | .nan, _ => false

/-- Whether an extended float is an ordinary finite value. -/
def EF.isFinite : EF → Bool
  | .fin _ => true
  | _ => false

/-- Finite part of an extended float; the junk value 0 on the non-finite
constructors (used only on the hit branch of the box test, where the chosen
parameter is provably finite). -/
def EF.toRat : EF → ℚ
  | .fin q => q
  | _ => 0

/-- IEEE division of two finite values (the slab quotients
`(±0.5 - origin) / direction`): finite quotient for a nonzero divisor,
signed infinity for `nonzero / 0`, NaN for `0 / 0`. -/
def efDiv (a b : ℚ) : EF :=
  if b = 0 then (if 0 < a then .pinf else if a < 0 then .ninf else .nan)
  else .fin (a / b)

/-- Minimum as computed by `glm::min` on floats: `(y < x) ? y : x`. -/
def glmMin (x y : EF) : EF := if EF.lt y x then y else x

/-- Maximum as computed by `glm::max` on floats: `(x < y) ? y : x`. -/
def glmMax (x y : EF) : EF := if EF.lt x y then y else x

/-- Axis-aligned unit vector scaled by `s`: the local
`glm::vec3 n; n[xyz] = s;` of the slab loop (the other two components are
modelled as zero-initialized). -/
def axisVec : Fin 3 → ℚ → Vec3
  | 0, s => ⟨s, 0, 0⟩
  | 1, s => ⟨0, s, 0⟩
  | 2, s => ⟨0, 0, s⟩

/-- Running state of the slab loop of `boxIntersectionTest`: the interval
`[tmin, tmax]` and the normals recorded when each bound was updated
(the normal locals are declared uninitialized in the source; they are
modelled as zero-initialized). -/
structure SlabState where
  tmin : EF
  tmax : EF
  tmin_n : Vec3
  tmax_n : Vec3
deriving DecidableEq

/-- Initial slab state: `tmin = -1e38`, `tmax = 1e38`. -/
def slabInit : SlabState :=
  ⟨.fin (-(10^38)), .fin (10^38), vzero, vzero⟩

/-- One iteration of the slab loop of `boxIntersectionTest` on the axis
with origin component `oc` and direction component `dc`: computes
`t1 = (-0.5 - oc) / dc`, `t2 = (+0.5 - oc) / dc` with no guard against
`dc = 0`, orders them, records the axis normal with sign `+1` if `t2 < t1`
else `-1`, and updates the running interval. -/
def slabAxis (xyz : Fin 3) (oc dc : ℚ) (st : SlabState) : SlabState :=
  let t1 := efDiv (-(1/2) - oc) dc
  let t2 := efDiv (1/2 - oc) dc
  let ta := glmMin t1 t2
  let tb := glmMax t1 t2
  let n := axisVec xyz (if EF.lt t2 t1 then 1 else -1)
  let st1 := if EF.lt (.fin 0) ta && EF.lt st.tmin ta then
      { st with tmin := ta, tmin_n := n } else st
  if EF.lt tb st1.tmax then { st1 with tmax := tb, tmax_n := n } else st1

/-- The full 3-axis slab loop of `boxIntersectionTest` on the object-space
ray with origin `o` and direction `d`. -/
def boxSlabLoop (o d : Vec3) : SlabState :=
  slabAxis 2 o.z d.z (slabAxis 1 o.y d.y (slabAxis 0 o.x d.x slabInit))

/-- Ray/box intersection, modelling `boxIntersectionTest`: object space the
cube spans [-0.5, 0.5] on each axis; returns the world-space distance to
the written hit point, or -1 leaving the output parameters unchanged. -/
def boxIntersectionTest (box : Geom) (r : Ray)
    (point0 normal0 : Vec3) (outside0 : Bool) : Hit :=
  let qo := multiplyMV box.inverseTransform (point4 r.origin)
  let qd := glmNormalize (multiplyMV box.inverseTransform (dir4 r.direction))
  let st := boxSlabLoop qo qd
  if EF.le st.tmin st.tmax && EF.lt (.fin 0) st.tmax then
    let inside := EF.le st.tmin (.fin 0)
    let tchosen := if inside then st.tmax else st.tmin
    let nchosen := if inside then st.tmax_n else st.tmin_n
    let ip := multiplyMV box.transform
      (point4 (getPointOnRay ⟨qo, qd⟩ (EF.toRat tchosen)))
    let nrm := glmNormalize (multiplyMV box.transform (dir4 nchosen))
    ⟨glmLength (vsub r.origin ip), ip, nrm, !inside⟩
  else ⟨-1, point0, normal0, outside0⟩

/-- Root selection of `sphereIntersectionTest`: `None` when both roots are
negative; the smaller root with `outside = true` when both are positive;
otherwise the larger root with `outside = false`. -/
def sphereSelectRoot (t1 t2 : ℚ) : Option (ℚ × Bool) :=
  if t1 < 0 ∧ t2 < 0 then none
  else if 0 < t1 ∧ 0 < t2 then some (min t1 t2, true)
  else some (max t1 t2, false)

/-- Ray/sphere intersection, modelling `sphereIntersectionTest`: object
space the sphere has radius 0.5 and is centered at the origin. -/
def sphereIntersectionTest (sphere : Geom) (r : Ray)
    (point0 normal0 : Vec3) (outside0 : Bool) : Hit :=
  let radius : ℚ := 1/2
  let ro := multiplyMV sphere.inverseTransform (point4 r.origin)
  let rd := glmNormalize (multiplyMV sphere.inverseTransform (dir4 r.direction))
  let vDotDirection := vdot ro rd
  let radicand := vDotDirection * vDotDirection - (vdot ro ro - radius ^ 2)
  if radicand < 0 then ⟨-1, point0, normal0, outside0⟩
  else
    let squareRoot := ratSqrt radicand
    let firstTerm := -vDotDirection
    match sphereSelectRoot (firstTerm + squareRoot) (firstTerm - squareRoot) with
    | none => ⟨-1, point0, normal0, outside0⟩
    | some (t, outside) =>
      let objspaceIntersection := getPointOnRay ⟨ro, rd⟩ t
      let ip := multiplyMV sphere.transform (point4 objspaceIntersection)
      let nrm0 := glmNormalize (multiplyMV sphere.invTranspose (dir4 objspaceIntersection))
      ⟨glmLength (vsub r.origin ip), ip, if outside then nrm0 else vneg nrm0, outside⟩

theorem ratSqrt_nonneg (q : ℚ) : 0 ≤ ratSqrt q := Rat.sqrt_nonneg q

theorem ratSqrt_mul_self (q : ℚ) (h : 0 ≤ q) : ratSqrt (q * q) = q := by
  rw [ratSqrt, Rat.sqrt_eq, abs_of_nonneg h]

theorem glmLength_nonneg (v : Vec3) : 0 ≤ glmLength v := ratSqrt_nonneg _

theorem ratSqrt_one : ratSqrt 1 = 1 := by
  simp [ratSqrt]

/-- Normalizing an already unit-length vector is the identity. -/
theorem glmNormalize_unit (v : Vec3) (h : vdot v v = 1) : glmNormalize v = v := by
  have h1 : glmLength v = 1 := by rw [glmLength, h, ratSqrt_one]
  simp [glmNormalize, h1]

theorem vadd_vsmul_zero (cam ray : Vec3) : vadd cam (vsmul 0 ray) = cam := by
  simp [vadd, vsmul]

/-- If none of the `n` fine samples is below the threshold, the fine loop
returns the sentinel 0. -/
theorem marchFine_miss (f : Vec3 → ℚ) (cam ray : Vec3) (n : ℕ) :
    ∀ t : ℚ, (∀ j : ℕ, j < n → ¬ f (vadd cam (vsmul (t + j/50) ray)) < 1/1000) →
    marchFine f cam ray n t = 0 := by
  induction n with
  | zero => intro t _; rfl
  | succ n ih =>
    intro t h
    rw [marchFine, if_neg (by simpa using h 0 (Nat.succ_pos n))]
    apply ih
    intro j hj
    have h2 := h (j + 1) (by omega)
    have e : t + 1/50 + (j : ℚ)/50 = t + ((j : ℚ) + 1)/50 := by ring
    rw [e]
    simpa [Nat.cast_add] using h2

/-- The fine loop returns `t + j0*0.02 - 0.02` at the first sample index
`j0` whose field value is below the threshold. -/
theorem marchFine_first (f : Vec3 → ℚ) (cam ray : Vec3) (n : ℕ) :
    ∀ (t : ℚ) (j0 : ℕ), j0 < n →
    (∀ j : ℕ, j < j0 → ¬ f (vadd cam (vsmul (t + j/50) ray)) < 1/1000) →
    f (vadd cam (vsmul (t + j0/50) ray)) < 1/1000 →
    marchFine f cam ray n t = (t + j0/50) - 1/50 := by
  induction n with
  | zero => intro t j0 h; omega
  | succ n ih =>
    intro t j0 hj0 hmiss hhit
    match j0 with
    | 0 =>
      rw [marchFine, if_pos (by simpa using hhit)]
      norm_num
    | j0 + 1 =>
      rw [marchFine, if_neg (by simpa using hmiss 0 (Nat.succ_pos _))]
      have e : ∀ j : ℕ, t + 1/50 + (j : ℚ)/50 = t + ((j : ℚ) + 1)/50 := by
        intro j; ring
      have step := ih (t + 1/50) j0 (by omega) ?_ ?_
      · rw [step]; push_cast; ring
      · intro j hj
        have h2 := hmiss (j + 1) (by omega)
        rw [e j]
        simpa [Nat.cast_add] using h2
      · rw [e j0]
        simpa [Nat.cast_add] using hhit

/-- If none of the `n` coarse samples is below the threshold, the coarse
loop returns the sentinel 0. -/
theorem marchCoarse_miss (f : Vec3 → ℚ) (cam ray : Vec3) (n : ℕ) :
    ∀ t : ℚ, (∀ i : ℕ, i < n → ¬ f (vadd cam (vsmul (t + i/10) ray)) < 1/1000) →
    marchCoarse f cam ray n t = 0 := by
  induction n with
  | zero => intro t _; rfl
  | succ n ih =>
    intro t h
    rw [marchCoarse, if_neg (by simpa using h 0 (Nat.succ_pos n))]
    apply ih
    intro i hi
    have h2 := h (i + 1) (by omega)
    have e : t + 1/10 + (i : ℚ)/10 = t + ((i : ℚ) + 1)/10 := by ring
    rw [e]
    simpa [Nat.cast_add] using h2

/-- The fine loop performs at most `n` field evaluations. -/
theorem marchFineEvals_le (f : Vec3 → ℚ) (cam ray : Vec3) (n : ℕ) :
    ∀ t : ℚ, marchFineEvals f cam ray n t ≤ n := by
  induction n with
  | zero => intro t; exact Nat.le_refl 0
  | succ n ih =>
    intro t
    rw [marchFineEvals]
    split
    · omega
    · have := ih (t + 1/50)
      omega

/-- The coarse loop performs at most `n` coarse-phase and 10 fine-phase
field evaluations. -/
theorem marchCoarseEvals_le (f : Vec3 → ℚ) (cam ray : Vec3) (n : ℕ) :
    ∀ t : ℚ, (marchCoarseEvals f cam ray n t).1 ≤ n ∧
      (marchCoarseEvals f cam ray n t).2 ≤ 10 := by
  induction n with
  | zero => intro t; exact ⟨Nat.le_refl 0, by norm_num [marchCoarseEvals]⟩
  | succ n ih =>
    intro t
    rw [marchCoarseEvals]
    split
    · exact ⟨by omega, marchFineEvals_le f cam ray 10 _⟩
    · have := ih (t + 1/10)
      constructor
      · simp only []
        omega
      · simpa using this.2

/-- Field A is far above the threshold on the positive z-axis beyond z = 4. -/
theorem csg1SDF_z_big (z : ℚ) (hz : 4 ≤ z) : ¬ csg1SDF ⟨0, 0, z⟩ < 1/1000 := by
  simp only [csg1SDF, not_lt]
  have h2 : 16 ≤ z * z := by nlinarith
  nlinarith [h2]

/-- Field B is far above the threshold on the positive z-axis beyond z = 10. -/
theorem csg2SDF_z_big (z : ℚ) (hz : 10 ≤ z) : ¬ csg2SDF ⟨0, 0, z⟩ < 1/1000 := by
  simp only [csg2SDF, not_lt]
  have h2 : 100 ≤ z * z := by nlinarith
  nlinarith [h2]

/-- C7: for every input, `csg1Raytrace` and `csg2Raytrace` never assign
their `outside` output parameter: on return it equals whatever value the
caller passed in, for both hit and miss outcomes. -/
theorem csgRaytrace_outside_unassigned (cam ray : Vec3) (maxdist : ℚ) (b : Bool) :
    (csg1Raytrace cam ray maxdist b).2 = b ∧ (csg2Raytrace cam ray maxdist b).2 = b :=
  ⟨rfl, rfl⟩

/-- C10: whenever the field is already below the threshold at the ray
origin and one coarse step behind it, `csg1Raytrace` returns exactly
-0.12 = -(3/25), a strictly negative parameter. -/
theorem csg1Raytrace_negative_param (cam ray : Vec3) (maxdist : ℚ) (b : Bool)
    (h1 : csg1SDF cam < 1/1000)
    (h2 : csg1SDF (vsub cam (vsmul (1/10) ray)) < 1/1000) :
    (csg1Raytrace cam ray maxdist b).1 = -(3/25) ∧
    (csg1Raytrace cam ray maxdist b).1 < 0 := by
  have key : marchCoarse csg1SDF cam ray 700 0 = -(3/25) := by
    rw [marchCoarse, if_pos (by rwa [vadd_vsmul_zero])]
    rw [marchFine, if_pos ?hc]
    · norm_num
    case hc =>
      have e : vadd cam (vsmul (0 - 1/10) ray) = vsub cam (vsmul (1/10) ray) := by
        simp only [vadd, vsub, vsmul, Vec3.mk.injEq]
        refine ⟨by ring, by ring, by ring⟩
      rwa [e]
  refine ⟨key, ?_⟩
  have : (csg1Raytrace cam ray maxdist b).1 = marchCoarse csg1SDF cam ray 700 0 := rfl
  rw [this, key]
  norm_num

/-- Witness for C10 at the origin (1.58, 1.58, 1.58) with direction
(0, 0, 1), where both hypotheses hold because the field is deeply
negative. -/
theorem csg1Raytrace_negative_param_witness :
    (csg1Raytrace ⟨79/50, 79/50, 79/50⟩ ⟨0, 0, 1⟩ 100 true).1 = -(3/25) :=
  (csg1Raytrace_negative_param ⟨79/50, 79/50, 79/50⟩ ⟨0, 0, 1⟩ 100 true
    (by norm_num [csg1SDF]) (by norm_num [csg1SDF, vsub, vsmul])).1

/-- C1 counterexample: at the concrete coarse-phase state below, the field
value is deeply negative, so its absolute value is not below 0.001, yet the
source transitions to fine refinement (the step evaluates to the fine
result -3/25); under the claimed absolute-value condition the step would
have stayed in coarse search (else branch, evaluating to 0 with the
remaining budget). -/
theorem csg1_coarse_condition_counterexample :
    csg1SDF ⟨79/50, 79/50, 79/50⟩ < 1/1000 ∧
    ¬ |csg1SDF ⟨79/50, 79/50, 79/50⟩| < 1/1000 ∧
    marchCoarse csg1SDF ⟨79/50, 79/50, 79/50⟩ ⟨0, 0, 1⟩ 1 0 = -(3/25) ∧
    (if |csg1SDF (vadd ⟨79/50, 79/50, 79/50⟩ (vsmul 0 ⟨0, 0, 1⟩))| < 1/1000
      then marchFine csg1SDF ⟨79/50, 79/50, 79/50⟩ ⟨0, 0, 1⟩ 10 (0 - 1/10)
      else marchCoarse csg1SDF ⟨79/50, 79/50, 79/50⟩ ⟨0, 0, 1⟩ 0 (0 + 1/10)) = 0 := by
  have hval : csg1SDF ⟨79/50, 79/50, 79/50⟩ = -(43437257/6250000) := by
    norm_num [csg1SDF]
  have habs : ¬ |csg1SDF ⟨79/50, 79/50, 79/50⟩| < 1/1000 := by
    rw [hval, abs_neg, abs_of_nonneg (by norm_num : (0:ℚ) ≤ 43437257/6250000)]
    norm_num
  refine ⟨by rw [hval]; norm_num, habs, ?_, ?_⟩
  · rw [marchCoarse, if_pos (by rw [vadd_vsmul_zero, hval]; norm_num)]
    rw [marchFine, if_pos (by norm_num [csg1SDF, vadd, vsmul])]
    norm_num
  · rw [if_neg (by rwa [vadd_vsmul_zero])]
    rfl

/-- C1 (amended): in the coarse phase the marchers step back and transition
to fine refinement exactly when the signed field value is below 0.001 (no
absolute value), and otherwise advance by the coarse step; the fine phase
returns `t + j0*0.02 - 0.02` at the first of its up-to-10 steps whose
signed field value is below 0.001. -/
theorem csg_march_threshold_amended (cam ray : Vec3) (n : ℕ) (t : ℚ) :
    (marchCoarse csg1SDF cam ray (n + 1) t =
      if csg1SDF (vadd cam (vsmul t ray)) < 1/1000
      then marchFine csg1SDF cam ray 10 (t - 1/10)
      else marchCoarse csg1SDF cam ray n (t + 1/10)) ∧
    (marchCoarse csg2SDF cam ray (n + 1) t =
      if csg2SDF (vadd cam (vsmul t ray)) < 1/1000
      then marchFine csg2SDF cam ray 10 (t - 1/10)
      else marchCoarse csg2SDF cam ray n (t + 1/10)) ∧
    (∀ j0 : ℕ, j0 < 10 →
      (∀ j : ℕ, j < j0 → ¬ csg1SDF (vadd cam (vsmul (t + j/50) ray)) < 1/1000) →
      csg1SDF (vadd cam (vsmul (t + j0/50) ray)) < 1/1000 →
      marchFine csg1SDF cam ray 10 t = (t + j0/50) - 1/50) ∧
    (∀ j0 : ℕ, j0 < 10 →
      (∀ j : ℕ, j < j0 → ¬ csg2SDF (vadd cam (vsmul (t + j/50) ray)) < 1/1000) →
      csg2SDF (vadd cam (vsmul (t + j0/50) ray)) < 1/1000 →
      marchFine csg2SDF cam ray 10 t = (t + j0/50) - 1/50) := by
  refine ⟨rfl, rfl, ?_, ?_⟩
  · intro j0 h1 h2 h3
    exact marchFine_first csg1SDF cam ray 10 t j0 h1 h2 h3
  · intro j0 h1 h2 h3
    exact marchFine_first csg2SDF cam ray 10 t j0 h1 h2 h3

/-- Witness for the amended C1: the fine phase started at t = -0.1 from the
origin (1.58, 1.58, 1.58) towards (0, 0, 1) hits at its very first step
(j0 = 0) and returns -0.1 + 0 - 0.02. -/
theorem csg_march_threshold_amended_witness :
    marchFine csg1SDF ⟨79/50, 79/50, 79/50⟩ ⟨0, 0, 1⟩ 10 (0 - 1/10) =
      ((0 - 1/10) + ((0 : ℕ) : ℚ)/50) - 1/50 :=
  (csg_march_threshold_amended ⟨79/50, 79/50, 79/50⟩ ⟨0, 0, 1⟩ 0 (0 - 1/10)).2.2.1 0
    (by norm_num) (fun j hj => absurd hj (by omega))
    (by norm_num [csg1SDF, vadd, vsmul])

/-- C6: every call to the marchers performs at most 700 coarse-phase plus
10 fine-phase field evaluations, and when a cap elapses without meeting the
crossing condition (in either phase) the sentinel 0 is returned. -/
theorem csg_raytrace_bounded (cam ray : Vec3) (maxdist : ℚ) (b : Bool) :
    (marchCoarseEvals csg1SDF cam ray 700 0).1 ≤ 700 ∧
    (marchCoarseEvals csg1SDF cam ray 700 0).2 ≤ 10 ∧
    (marchCoarseEvals csg2SDF cam ray 700 0).1 ≤ 700 ∧
    (marchCoarseEvals csg2SDF cam ray 700 0).2 ≤ 10 ∧
    ((∀ i : ℕ, i < 700 → ¬ csg1SDF (vadd cam (vsmul ((i : ℚ)/10) ray)) < 1/1000) →
      (csg1Raytrace cam ray maxdist b).1 = 0) ∧
    ((∀ i : ℕ, i < 700 → ¬ csg2SDF (vadd cam (vsmul ((i : ℚ)/10) ray)) < 1/1000) →
      (csg2Raytrace cam ray maxdist b).1 = 0) ∧
    (∀ t0 : ℚ,
      (∀ j : ℕ, j < 10 → ¬ csg1SDF (vadd cam (vsmul (t0 + j/50) ray)) < 1/1000) →
      marchFine csg1SDF cam ray 10 t0 = 0) ∧
    (∀ t0 : ℚ,
      (∀ j : ℕ, j < 10 → ¬ csg2SDF (vadd cam (vsmul (t0 + j/50) ray)) < 1/1000) →
      marchFine csg2SDF cam ray 10 t0 = 0) := by
  refine ⟨(marchCoarseEvals_le csg1SDF cam ray 700 0).1,
          (marchCoarseEvals_le csg1SDF cam ray 700 0).2,
          (marchCoarseEvals_le csg2SDF cam ray 700 0).1,
          (marchCoarseEvals_le csg2SDF cam ray 700 0).2, ?_, ?_, ?_, ?_⟩
  · intro h
    apply marchCoarse_miss
    intro i hi
    simpa using h i hi
  · intro h
    apply marchCoarse_miss
    intro i hi
    simpa using h i hi
  · intro t0 h
    exact marchFine_miss csg1SDF cam ray 10 t0 h
  · intro t0 h
    exact marchFine_miss csg2SDF cam ray 10 t0 h

/-- Witness for C6: along the positive z-axis from (0,0,4) (field A) and
from (0,0,10) (field B) no sample ever crosses, so both marchers return the
miss sentinel 0; the fine cap alone also yields 0 on the same ray. -/
theorem csg_raytrace_bounded_witness :
    (csg1Raytrace ⟨0, 0, 4⟩ ⟨0, 0, 1⟩ 100 true).1 = 0 ∧
    (csg2Raytrace ⟨0, 0, 10⟩ ⟨0, 0, 1⟩ 100 true).1 = 0 ∧
    marchFine csg1SDF ⟨0, 0, 4⟩ ⟨0, 0, 1⟩ 10 0 = 0 := by
  refine ⟨(csg_raytrace_bounded ⟨0, 0, 4⟩ ⟨0, 0, 1⟩ 100 true).2.2.2.2.1 ?_,
          (csg_raytrace_bounded ⟨0, 0, 10⟩ ⟨0, 0, 1⟩ 100 true).2.2.2.2.2.1 ?_,
          (csg_raytrace_bounded ⟨0, 0, 4⟩ ⟨0, 0, 1⟩ 100 true).2.2.2.2.2.2.1 0 ?_⟩
  · intro i hi
    have e : vadd ⟨0, 0, 4⟩ (vsmul ((i : ℚ)/10) ⟨0, 0, 1⟩) =
        (⟨0, 0, 4 + (i : ℚ)/10⟩ : Vec3) := by
      simp [vadd, vsmul]
    rw [e]
    apply csg1SDF_z_big
    have : (0 : ℚ) ≤ (i : ℚ)/10 := by positivity
    linarith
  · intro i hi
    have e : vadd ⟨0, 0, 10⟩ (vsmul ((i : ℚ)/10) ⟨0, 0, 1⟩) =
        (⟨0, 0, 10 + (i : ℚ)/10⟩ : Vec3) := by
      simp [vadd, vsmul]
    rw [e]
    apply csg2SDF_z_big
    have : (0 : ℚ) ≤ (i : ℚ)/10 := by positivity
    linarith
  · intro j hj
    have e : vadd ⟨0, 0, 4⟩ (vsmul (0 + (j : ℚ)/50) ⟨0, 0, 1⟩) =
        (⟨0, 0, 4 + (j : ℚ)/50⟩ : Vec3) := by
      simp [vadd, vsmul]
    rw [e]
    apply csg1SDF_z_big
    have : (0 : ℚ) ≤ (j : ℚ)/50 := by positivity
    linarith

theorem multiplyMV_id_point (v : Vec3) : multiplyMV idMat4 (point4 v) = v := by
  simp [multiplyMV, idMat4, point4]

theorem multiplyMV_id_dir (v : Vec3) : multiplyMV idMat4 (dir4 v) = v := by
  simp [multiplyMV, idMat4, dir4]

/-- Both marchers miss along the positive z-axis starting at (0, 0, 10). -/
theorem csg_miss_z10 (b : Bool) :
    (csg1Raytrace ⟨0, 0, 10⟩ ⟨0, 0, 1⟩ 100 b).1 = 0 ∧
    (csg2Raytrace ⟨0, 0, 10⟩ ⟨0, 0, 1⟩ 100 b).1 = 0 := by
  constructor
  · show marchCoarse csg1SDF ⟨0, 0, 10⟩ ⟨0, 0, 1⟩ 700 0 = 0
    apply marchCoarse_miss
    intro i hi
    have e : vadd ⟨0, 0, 10⟩ (vsmul (0 + (i : ℚ)/10) ⟨0, 0, 1⟩) =
        (⟨0, 0, 10 + (i : ℚ)/10⟩ : Vec3) := by
      simp [vadd, vsmul]
    rw [e]
    apply csg1SDF_z_big
    have : (0 : ℚ) ≤ (i : ℚ)/10 := by positivity
    linarith
  · show marchCoarse csg2SDF ⟨0, 0, 10⟩ ⟨0, 0, 1⟩ 700 0 = 0
    apply marchCoarse_miss
    intro i hi
    have e : vadd ⟨0, 0, 10⟩ (vsmul (0 + (i : ℚ)/10) ⟨0, 0, 1⟩) =
        (⟨0, 0, 10 + (i : ℚ)/10⟩ : Vec3) := by
      simp [vadd, vsmul]
    rw [e]
    apply csg2SDF_z_big
    have : (0 : ℚ) ≤ (i : ℚ)/10 := by positivity
    linarith

/-- C9: when the marcher misses (returns 0), `csg1IntersectionTest` and
`csg2IntersectionTest` still overwrite both output parameters: the
intersection point with the forward transform of the object-space ray
origin, and the normal with the (conditionally negated) transformed field
gradient at that origin. -/
theorem csg_wrappers_write_on_miss (s : Geom) (r : Ray) (p0 n0 : Vec3) (o0 : Bool)
    (pt dir : Vec3)
    (hpt : pt = multiplyMV s.inverseTransform (point4 r.origin))
    (hdir : dir = multiplyMV s.inverseTransform (dir4 r.direction)) :
    ((csg1Raytrace pt dir 100 o0).1 = 0 →
      (csg1IntersectionTest s r p0 n0 o0).point = multiplyMV s.transform (point4 pt) ∧
      (csg1IntersectionTest s r p0 n0 o0).normal =
        (if o0 then glmNormalize (multiplyMV s.invTranspose (dir4 (getCsg1Normal pt)))
         else vneg (glmNormalize (multiplyMV s.invTranspose (dir4 (getCsg1Normal pt)))))) ∧
    ((csg2Raytrace pt dir 100 o0).1 = 0 →
      (csg2IntersectionTest s r p0 n0 o0).point = multiplyMV s.transform (point4 pt) ∧
      (csg2IntersectionTest s r p0 n0 o0).normal =
        (if o0 then glmNormalize (multiplyMV s.invTranspose (dir4 (getCsg2Normal pt)))
         else vneg (glmNormalize (multiplyMV s.invTranspose (dir4 (getCsg2Normal pt)))))) := by
  subst hpt hdir
  constructor
  · intro h
    have h0 : marchCoarse csg1SDF (multiplyMV s.inverseTransform (point4 r.origin))
        (multiplyMV s.inverseTransform (dir4 r.direction)) 700 0 = 0 := h
    constructor
    · simp only [csg1IntersectionTest, csg1Raytrace, h0, vadd_vsmul_zero]
    · simp only [csg1IntersectionTest, csg1Raytrace, h0, vadd_vsmul_zero]
  · intro h
    have h0 : marchCoarse csg2SDF (multiplyMV s.inverseTransform (point4 r.origin))
        (multiplyMV s.inverseTransform (dir4 r.direction)) 700 0 = 0 := h
    constructor
    · simp only [csg2IntersectionTest, csg2Raytrace, h0, vadd_vsmul_zero]
    · simp only [csg2IntersectionTest, csg2Raytrace, h0, vadd_vsmul_zero]

/-- Witness for C9: for the identity placement and the missing ray from
(0, 0, 10) towards (0, 0, 1), both wrappers write the transformed ray
origin to the point output. -/
theorem csg_wrappers_write_on_miss_witness :
    (csg1IntersectionTest idGeom ⟨⟨0, 0, 10⟩, ⟨0, 0, 1⟩⟩ vzero vzero true).point =
      multiplyMV idGeom.transform (point4 ⟨0, 0, 10⟩) ∧
    (csg2IntersectionTest idGeom ⟨⟨0, 0, 10⟩, ⟨0, 0, 1⟩⟩ vzero vzero true).point =
      multiplyMV idGeom.transform (point4 ⟨0, 0, 10⟩) :=
  ⟨((csg_wrappers_write_on_miss idGeom ⟨⟨0, 0, 10⟩, ⟨0, 0, 1⟩⟩ vzero vzero true
      ⟨0, 0, 10⟩ ⟨0, 0, 1⟩ (multiplyMV_id_point _).symm (multiplyMV_id_dir _).symm).1
      (csg_miss_z10 true).1).1,
   ((csg_wrappers_write_on_miss idGeom ⟨⟨0, 0, 10⟩, ⟨0, 0, 1⟩⟩ vzero vzero true
      ⟨0, 0, 10⟩ ⟨0, 0, 1⟩ (multiplyMV_id_point _).symm (multiplyMV_id_dir _).symm).2
      (csg_miss_z10 true).2).1⟩

/-- C2: on every reported hit, `boxIntersectionTest` and
`sphereIntersectionTest` return the world-space Euclidean distance from the
original ray origin to the written world-space intersection point (and -1
on a miss), whereas `csg1IntersectionTest` and `csg2IntersectionTest`
return the marcher's raw object-space parameter unchanged (and 0 on a
miss). -/
theorem return_value_contract (g : Geom) (r : Ray) (p0 n0 : Vec3) (o0 : Bool) :
    ((boxIntersectionTest g r p0 n0 o0).t = -1 ∨
      (boxIntersectionTest g r p0 n0 o0).t =
        glmLength (vsub r.origin (boxIntersectionTest g r p0 n0 o0).point)) ∧
    ((sphereIntersectionTest g r p0 n0 o0).t = -1 ∨
      (sphereIntersectionTest g r p0 n0 o0).t =
        glmLength (vsub r.origin (sphereIntersectionTest g r p0 n0 o0).point)) ∧
    (csg1IntersectionTest g r p0 n0 o0).t =
      (csg1Raytrace (multiplyMV g.inverseTransform (point4 r.origin))
        (multiplyMV g.inverseTransform (dir4 r.direction)) 100 o0).1 ∧
    ((csg1Raytrace (multiplyMV g.inverseTransform (point4 r.origin))
        (multiplyMV g.inverseTransform (dir4 r.direction)) 100 o0).1 = 0 →
      (csg1IntersectionTest g r p0 n0 o0).t = 0) ∧
    (csg2IntersectionTest g r p0 n0 o0).t =
      (csg2Raytrace (multiplyMV g.inverseTransform (point4 r.origin))
        (multiplyMV g.inverseTransform (dir4 r.direction)) 100 o0).1 ∧
    ((csg2Raytrace (multiplyMV g.inverseTransform (point4 r.origin))
        (multiplyMV g.inverseTransform (dir4 r.direction)) 100 o0).1 = 0 →
      (csg2IntersectionTest g r p0 n0 o0).t = 0) := by
  refine ⟨?_, ?_, rfl, ?_, rfl, ?_⟩
  · unfold boxIntersectionTest
    by_cases h : (EF.le (boxSlabLoop (multiplyMV g.inverseTransform (point4 r.origin))
        (glmNormalize (multiplyMV g.inverseTransform (dir4 r.direction)))).tmin
        (boxSlabLoop (multiplyMV g.inverseTransform (point4 r.origin))
        (glmNormalize (multiplyMV g.inverseTransform (dir4 r.direction)))).tmax &&
        EF.lt (EF.fin 0) (boxSlabLoop (multiplyMV g.inverseTransform (point4 r.origin))
        (glmNormalize (multiplyMV g.inverseTransform (dir4 r.direction)))).tmax) = true
    · rw [if_pos h]
      right
      rfl
    · rw [if_neg h]
      left
      rfl
  · unfold sphereIntersectionTest
    by_cases h : vdot (multiplyMV g.inverseTransform (point4 r.origin))
        (glmNormalize (multiplyMV g.inverseTransform (dir4 r.direction))) *
        vdot (multiplyMV g.inverseTransform (point4 r.origin))
        (glmNormalize (multiplyMV g.inverseTransform (dir4 r.direction))) -
        (vdot (multiplyMV g.inverseTransform (point4 r.origin))
        (multiplyMV g.inverseTransform (point4 r.origin)) - (1/2 : ℚ) ^ 2) < 0
    · rw [if_pos h]
      left
      rfl
    · rw [if_neg h]
      rcases hsel : sphereSelectRoot
          (-(vdot (multiplyMV g.inverseTransform (point4 r.origin))
            (glmNormalize (multiplyMV g.inverseTransform (dir4 r.direction)))) +
            ratSqrt (vdot (multiplyMV g.inverseTransform (point4 r.origin))
            (glmNormalize (multiplyMV g.inverseTransform (dir4 r.direction))) *
            vdot (multiplyMV g.inverseTransform (point4 r.origin))
            (glmNormalize (multiplyMV g.inverseTransform (dir4 r.direction))) -
            (vdot (multiplyMV g.inverseTransform (point4 r.origin))
            (multiplyMV g.inverseTransform (point4 r.origin)) - (1/2 : ℚ) ^ 2)))
          (-(vdot (multiplyMV g.inverseTransform (point4 r.origin))
            (glmNormalize (multiplyMV g.inverseTransform (dir4 r.direction)))) -
            ratSqrt (vdot (multiplyMV g.inverseTransform (point4 r.origin))
            (glmNormalize (multiplyMV g.inverseTransform (dir4 r.direction))) *
            vdot (multiplyMV g.inverseTransform (point4 r.origin))
            (glmNormalize (multiplyMV g.inverseTransform (dir4 r.direction))) -
            (vdot (multiplyMV g.inverseTransform (point4 r.origin))
            (multiplyMV g.inverseTransform (point4 r.origin)) - (1/2 : ℚ) ^ 2)))
          with _ | ⟨t, outside⟩
      · left
        simp only [hsel]
      · right
        simp only [hsel]
  · intro h
    have e : (csg1IntersectionTest g r p0 n0 o0).t =
        (csg1Raytrace (multiplyMV g.inverseTransform (point4 r.origin))
          (multiplyMV g.inverseTransform (dir4 r.direction)) 100 o0).1 := rfl
    rw [e, h]
  · intro h
    have e : (csg2IntersectionTest g r p0 n0 o0).t =
        (csg2Raytrace (multiplyMV g.inverseTransform (point4 r.origin))
          (multiplyMV g.inverseTransform (dir4 r.direction)) 100 o0).1 := rfl
    rw [e, h]

/-- Witness for C2: the implication parts instantiated at the missing ray
from (0, 0, 10) with the identity placement, giving raw return 0 from both
implicit-surface wrappers. -/
theorem return_value_contract_witness :
    (csg1IntersectionTest idGeom ⟨⟨0, 0, 10⟩, ⟨0, 0, 1⟩⟩ vzero vzero true).t = 0 ∧
    (csg2IntersectionTest idGeom ⟨⟨0, 0, 10⟩, ⟨0, 0, 1⟩⟩ vzero vzero true).t = 0 := by
  have hm1 : (csg1Raytrace (multiplyMV idGeom.inverseTransform (point4 ⟨0, 0, 10⟩))
      (multiplyMV idGeom.inverseTransform (dir4 ⟨0, 0, 1⟩)) 100 true).1 = 0 := by
    rw [show multiplyMV idGeom.inverseTransform (point4 ⟨0, 0, 10⟩) = (⟨0, 0, 10⟩ : Vec3)
        from multiplyMV_id_point _,
      show multiplyMV idGeom.inverseTransform (dir4 ⟨0, 0, 1⟩) = (⟨0, 0, 1⟩ : Vec3)
        from multiplyMV_id_dir _]
    exact (csg_miss_z10 true).1
  have hm2 : (csg2Raytrace (multiplyMV idGeom.inverseTransform (point4 ⟨0, 0, 10⟩))
      (multiplyMV idGeom.inverseTransform (dir4 ⟨0, 0, 1⟩)) 100 true).1 = 0 := by
    rw [show multiplyMV idGeom.inverseTransform (point4 ⟨0, 0, 10⟩) = (⟨0, 0, 10⟩ : Vec3)
        from multiplyMV_id_point _,
      show multiplyMV idGeom.inverseTransform (dir4 ⟨0, 0, 1⟩) = (⟨0, 0, 1⟩ : Vec3)
        from multiplyMV_id_dir _]
    exact (csg_miss_z10 true).2
  exact ⟨(return_value_contract idGeom ⟨⟨0, 0, 10⟩, ⟨0, 0, 1⟩⟩ vzero vzero true).2.2.2.1 hm1,
         (return_value_contract idGeom ⟨⟨0, 0, 10⟩, ⟨0, 0, 1⟩⟩ vzero vzero true).2.2.2.2.2 hm2⟩

/-- C3: after solving the quadratic, the sphere intersector selects the
root as follows: both roots negative -> no intersection (-1, outputs
unchanged); both positive -> smaller root with `outside = true` and the
unflipped normal; otherwise -> larger root with `outside = false` and the
sign-flipped normal. -/
theorem sphere_root_selection (g : Geom) (r : Ray) (p0 n0 : Vec3) (o0 : Bool)
    (ro rd : Vec3) (vd radicand t1 t2 : ℚ)
    (hro : ro = multiplyMV g.inverseTransform (point4 r.origin))
    (hrd : rd = glmNormalize (multiplyMV g.inverseTransform (dir4 r.direction)))
    (hvd : vd = vdot ro rd)
    (hrad : radicand = vd * vd - (vdot ro ro - (1/2 : ℚ) ^ 2))
    (hnonneg : ¬ radicand < 0)
    (ht1 : t1 = -vd + ratSqrt radicand)
    (ht2 : t2 = -vd - ratSqrt radicand) :
    (t1 < 0 ∧ t2 < 0 →
      sphereIntersectionTest g r p0 n0 o0 = ⟨-1, p0, n0, o0⟩) ∧
    (0 < t1 ∧ 0 < t2 →
      sphereIntersectionTest g r p0 n0 o0 =
        ⟨glmLength (vsub r.origin
            (multiplyMV g.transform (point4 (getPointOnRay ⟨ro, rd⟩ (min t1 t2))))),
         multiplyMV g.transform (point4 (getPointOnRay ⟨ro, rd⟩ (min t1 t2))),
         glmNormalize (multiplyMV g.invTranspose (dir4 (getPointOnRay ⟨ro, rd⟩ (min t1 t2)))),
         true⟩) ∧
    (¬(t1 < 0 ∧ t2 < 0) → ¬(0 < t1 ∧ 0 < t2) →
      sphereIntersectionTest g r p0 n0 o0 =
        ⟨glmLength (vsub r.origin
            (multiplyMV g.transform (point4 (getPointOnRay ⟨ro, rd⟩ (max t1 t2))))),
         multiplyMV g.transform (point4 (getPointOnRay ⟨ro, rd⟩ (max t1 t2))),
         vneg (glmNormalize (multiplyMV g.invTranspose (dir4 (getPointOnRay ⟨ro, rd⟩ (max t1 t2))))),
         false⟩) := by
  simp only [sphereIntersectionTest]
  rw [← hro, ← hrd, ← hvd, ← hrad, ← ht1, ← ht2, if_neg hnonneg]
  refine ⟨?_, ?_, ?_⟩
  · rintro ⟨h1, h2⟩
    have hsel : sphereSelectRoot t1 t2 = none := by
      unfold sphereSelectRoot
      rw [if_pos ⟨h1, h2⟩]
    simp only [hsel]
  · rintro ⟨h1, h2⟩
    have hsel : sphereSelectRoot t1 t2 = some (min t1 t2, true) := by
      unfold sphereSelectRoot
      rw [if_neg (by rintro ⟨ha, hb⟩; linarith), if_pos ⟨h1, h2⟩]
    simp only [hsel]
    simp
  · intro hn1 hn2
    have hsel : sphereSelectRoot t1 t2 = some (max t1 t2, false) := by
      unfold sphereSelectRoot
      rw [if_neg hn1, if_neg hn2]
    simp only [hsel]
    simp

/-- Witness for C3: identity sphere, ray from (0, 0, -2) towards (0, 0, 1):
both roots 5/2 and 3/2 are positive, so the smaller is taken and `outside`
is set to true. -/
theorem sphere_root_selection_witness :
    (sphereIntersectionTest idGeom ⟨⟨0, 0, -2⟩, ⟨0, 0, 1⟩⟩ vzero vzero false).outside
      = true := by
  have hrd : (⟨0, 0, 1⟩ : Vec3) =
      glmNormalize (multiplyMV idGeom.inverseTransform (dir4 ⟨0, 0, 1⟩)) := by
    rw [show multiplyMV idGeom.inverseTransform (dir4 ⟨0, 0, 1⟩) = (⟨0, 0, 1⟩ : Vec3)
        from multiplyMV_id_dir _,
      glmNormalize_unit _ (by norm_num [vdot])]
  have hsqrt : ratSqrt (1/4) = 1/2 := by
    rw [show (1/4 : ℚ) = (1/2) * (1/2) by norm_num, ratSqrt_mul_self (1/2) (by norm_num)]
  have happ := (sphere_root_selection idGeom ⟨⟨0, 0, -2⟩, ⟨0, 0, 1⟩⟩ vzero vzero false
      ⟨0, 0, -2⟩ ⟨0, 0, 1⟩ (-2) (1/4) (5/2) (3/2)
      (multiplyMV_id_point _).symm hrd
      (by norm_num [vdot]) (by norm_num [vdot]) (by norm_num)
      (by rw [hsqrt]; norm_num) (by rw [hsqrt]; norm_num)).2.1
      ⟨by norm_num, by norm_num⟩
  rw [happ]

theorem EF.lt_ne_nan {a b : EF} (h : EF.lt a b = true) : a ≠ EF.nan ∧ b ≠ EF.nan := by
  cases a <;> cases b <;> simp_all [EF.lt]

/-- One slab-loop iteration never makes the interval bounds NaN (a NaN
candidate never passes the strict-comparison guards). -/
theorem slabAxis_ne_nan (xyz : Fin 3) (oc dc : ℚ) (st : SlabState)
    (h : st.tmin ≠ EF.nan ∧ st.tmax ≠ EF.nan) :
    (slabAxis xyz oc dc st).tmin ≠ EF.nan ∧ (slabAxis xyz oc dc st).tmax ≠ EF.nan := by
  simp only [slabAxis]
  by_cases h1 : (EF.lt (EF.fin 0) (glmMin (efDiv (-(1/2) - oc) dc) (efDiv (1/2 - oc) dc)) &&
      EF.lt st.tmin (glmMin (efDiv (-(1/2) - oc) dc) (efDiv (1/2 - oc) dc))) = true
  · rw [if_pos h1]
    rw [Bool.and_eq_true] at h1
    by_cases h2 : EF.lt (glmMax (efDiv (-(1/2) - oc) dc) (efDiv (1/2 - oc) dc)) st.tmax = true
    · rw [if_pos h2]
      exact ⟨(EF.lt_ne_nan h1.1).2, (EF.lt_ne_nan h2).1⟩
    · rw [if_neg h2]
      exact ⟨(EF.lt_ne_nan h1.1).2, h.2⟩
  · rw [if_neg h1]
    by_cases h2 : EF.lt (glmMax (efDiv (-(1/2) - oc) dc) (efDiv (1/2 - oc) dc)) st.tmax = true
    · rw [if_pos h2]
      exact ⟨h.1, (EF.lt_ne_nan h2).1⟩
    · rw [if_neg h2]
      exact h

theorem boxSlabLoop_ne_nan (o d : Vec3) :
    (boxSlabLoop o d).tmin ≠ EF.nan ∧ (boxSlabLoop o d).tmax ≠ EF.nan := by
  unfold boxSlabLoop
  apply slabAxis_ne_nan
  apply slabAxis_ne_nan
  apply slabAxis_ne_nan
  exact ⟨by simp [slabInit], by simp [slabInit]⟩

/-- For NaN-free bounds, the hit condition of the box test is the exact
negation of "tmax < tmin or tmax <= 0". -/
theorem EF.decision_negate {a b : EF} (ha : a ≠ EF.nan) (hb : b ≠ EF.nan) :
    (EF.le a b && EF.lt (EF.fin 0) b) = true ↔
      ¬ (EF.lt b a = true ∨ EF.le b (EF.fin 0) = true) := by
  cases a <;> cases b <;>
    simp_all [EF.le, EF.lt, not_or, not_lt, not_le] <;>
    constructor <;> intro h <;> try exact ⟨h.2, h.1⟩

/-- C4: after the 3-axis slab loop, the box intersector reports no
intersection (-1, outputs unchanged) exactly when tmax < tmin or tmax <= 0
in extended-float comparison; otherwise it sets outside = true and uses
tmin with its recorded normal, except that when the computed tmin <= 0
(ray origin inside the box) it uses tmax and its recorded normal and sets
outside = false. -/
theorem box_decision_rule (g : Geom) (r : Ray) (p0 n0 : Vec3) (o0 : Bool)
    (qo qd : Vec3) (st : SlabState)
    (hqo : qo = multiplyMV g.inverseTransform (point4 r.origin))
    (hqd : qd = glmNormalize (multiplyMV g.inverseTransform (dir4 r.direction)))
    (hst : st = boxSlabLoop qo qd) :
    ((boxIntersectionTest g r p0 n0 o0).t = -1 ↔
      (EF.lt st.tmax st.tmin = true ∨ EF.le st.tmax (EF.fin 0) = true)) ∧
    ((EF.lt st.tmax st.tmin = true ∨ EF.le st.tmax (EF.fin 0) = true) →
      boxIntersectionTest g r p0 n0 o0 = ⟨-1, p0, n0, o0⟩) ∧
    (¬ (EF.lt st.tmax st.tmin = true ∨ EF.le st.tmax (EF.fin 0) = true) →
      (EF.le st.tmin (EF.fin 0) = false →
        boxIntersectionTest g r p0 n0 o0 =
          ⟨glmLength (vsub r.origin (multiplyMV g.transform
              (point4 (getPointOnRay ⟨qo, qd⟩ (EF.toRat st.tmin))))),
           multiplyMV g.transform (point4 (getPointOnRay ⟨qo, qd⟩ (EF.toRat st.tmin))),
           glmNormalize (multiplyMV g.transform (dir4 st.tmin_n)),
           true⟩) ∧
      (EF.le st.tmin (EF.fin 0) = true →
        boxIntersectionTest g r p0 n0 o0 =
          ⟨glmLength (vsub r.origin (multiplyMV g.transform
              (point4 (getPointOnRay ⟨qo, qd⟩ (EF.toRat st.tmax))))),
           multiplyMV g.transform (point4 (getPointOnRay ⟨qo, qd⟩ (EF.toRat st.tmax))),
           glmNormalize (multiplyMV g.transform (dir4 st.tmax_n)),
           false⟩)) := by
  have hnan : st.tmin ≠ EF.nan ∧ st.tmax ≠ EF.nan := by
    rw [hst]
    exact boxSlabLoop_ne_nan qo qd
  have hiff := EF.decision_negate hnan.1 hnan.2
  simp only [boxIntersectionTest]
  rw [← hqo, ← hqd, ← hst]
  by_cases hdec : (EF.le st.tmin st.tmax && EF.lt (EF.fin 0) st.tmax) = true
  · have hmiss : ¬ (EF.lt st.tmax st.tmin = true ∨ EF.le st.tmax (EF.fin 0) = true) :=
      hiff.mp hdec
    rw [if_pos hdec]
    by_cases hin : EF.le st.tmin (EF.fin 0) = true
    · simp only [if_pos hin]
      refine ⟨?_, ?_, ?_⟩
      · constructor
        · intro he
          have hge := glmLength_nonneg (vsub r.origin (multiplyMV g.transform
              (point4 (getPointOnRay ⟨qo, qd⟩ (EF.toRat st.tmax)))))
          rw [show glmLength (vsub r.origin (multiplyMV g.transform
              (point4 (getPointOnRay ⟨qo, qd⟩ (EF.toRat st.tmax))))) = -1 from he] at hge
          norm_num at hge
        · intro hc
          exact absurd hc hmiss
      · intro hc
        exact absurd hc hmiss
      · intro _
        refine ⟨?_, ?_⟩
        · intro hfalse
          rw [hin] at hfalse
          exact Bool.noConfusion hfalse
        · intro _
          simp only [hin]
          rfl
    · simp only [if_neg hin]
      refine ⟨?_, ?_, ?_⟩
      · constructor
        · intro he
          have hge := glmLength_nonneg (vsub r.origin (multiplyMV g.transform
              (point4 (getPointOnRay ⟨qo, qd⟩ (EF.toRat st.tmin)))))
          rw [show glmLength (vsub r.origin (multiplyMV g.transform
              (point4 (getPointOnRay ⟨qo, qd⟩ (EF.toRat st.tmin))))) = -1 from he] at hge
          norm_num at hge
        · intro hc
          exact absurd hc hmiss
      · intro hc
        exact absurd hc hmiss
      · intro _
        refine ⟨?_, ?_⟩
        · intro _
          have hf : EF.le st.tmin (EF.fin 0) = false := by
            revert hin
            cases EF.le st.tmin (EF.fin 0) <;> simp
          simp only [hf]
          rfl
        · intro htrue
          exact absurd htrue hin
  · have hmiss : EF.lt st.tmax st.tmin = true ∨ EF.le st.tmax (EF.fin 0) = true := by
      by_contra hc
      exact hdec (hiff.mpr hc)
    rw [if_neg hdec]
    exact ⟨⟨fun _ => hmiss, fun _ => rfl⟩, fun _ => rfl, fun hc => absurd hmiss hc⟩

/-- An axis whose direction component is 0 with the origin component
strictly inside the slab contributes infinite quotients of opposite signs
and leaves the state unchanged. -/
theorem slabAxis_par_inside (xyz : Fin 3) (st : SlabState) :
    slabAxis xyz 0 0 st = st := by
  norm_num [slabAxis, efDiv, glmMin, glmMax, EF.lt]

theorem slabAxis_z_hit :
    slabAxis 2 (-2) 1 slabInit =
      ⟨EF.fin (3/2), EF.fin (5/2), ⟨0, 0, -1⟩, ⟨0, 0, -1⟩⟩ := by
  norm_num [slabAxis, slabInit, efDiv, glmMin, glmMax, EF.lt, axisVec, vzero]

/-- The slab loop on the object-space ray from (0, 0, -2) along (0, 0, 1). -/
theorem boxSlabLoop_zray :
    boxSlabLoop ⟨0, 0, -2⟩ ⟨0, 0, 1⟩ =
      ⟨EF.fin (3/2), EF.fin (5/2), ⟨0, 0, -1⟩, ⟨0, 0, -1⟩⟩ := by
  show slabAxis 2 (-2) 1 (slabAxis 1 0 0 (slabAxis 0 0 0 slabInit)) = _
  rw [slabAxis_par_inside, slabAxis_par_inside, slabAxis_z_hit]

/-- Witness for C4: for the identity box and the ray from (0, 0, -2) along
(0, 0, 1) the slab interval is [3/2, 5/2], neither miss condition holds,
and the test does not return -1. -/
theorem box_decision_rule_witness :
    ¬ (boxIntersectionTest idGeom ⟨⟨0, 0, -2⟩, ⟨0, 0, 1⟩⟩ vzero vzero false).t = -1 := by
  have hqd : (⟨0, 0, 1⟩ : Vec3) =
      glmNormalize (multiplyMV idGeom.inverseTransform (dir4 ⟨0, 0, 1⟩)) := by
    rw [show multiplyMV idGeom.inverseTransform (dir4 ⟨0, 0, 1⟩) = (⟨0, 0, 1⟩ : Vec3)
        from multiplyMV_id_dir _,
      glmNormalize_unit _ (by norm_num [vdot])]
  have h := (box_decision_rule idGeom ⟨⟨0, 0, -2⟩, ⟨0, 0, 1⟩⟩ vzero vzero false
      ⟨0, 0, -2⟩ ⟨0, 0, 1⟩ (boxSlabLoop ⟨0, 0, -2⟩ ⟨0, 0, 1⟩)
      (multiplyMV_id_point _).symm hqd rfl).1
  rw [boxSlabLoop_zray] at h
  intro hc
  rw [h] at hc
  rcases hc with hc | hc <;> norm_num [EF.lt, EF.le] at hc

/-- Full evaluation of the box test on the unit box with identity transform
and the ray from (0, 0, -2) along (0, 0, 1): because `getPointOnRay`
subtracts the 0.0001 bias, the written point is (0, 0, -0.5001) and the
returned distance is 1.4999, not (0, 0, -0.5) and 1.5; the normal is
(0, 0, -1) and outside is true. -/
theorem boxHit_zray_eval :
    boxIntersectionTest idGeom ⟨⟨0, 0, -2⟩, ⟨0, 0, 1⟩⟩ vzero vzero false =
      ⟨14999/10000, ⟨0, 0, -(5001/10000)⟩, ⟨0, 0, -1⟩, true⟩ := by
  have hqo : multiplyMV idGeom.inverseTransform (point4 ⟨0, 0, -2⟩) = (⟨0, 0, -2⟩ : Vec3) :=
    multiplyMV_id_point _
  have hqd : glmNormalize (multiplyMV idGeom.inverseTransform (dir4 ⟨0, 0, 1⟩)) =
      (⟨0, 0, 1⟩ : Vec3) := by
    rw [show multiplyMV idGeom.inverseTransform (dir4 ⟨0, 0, 1⟩) = (⟨0, 0, 1⟩ : Vec3)
        from multiplyMV_id_dir _]
    exact glmNormalize_unit _ (by norm_num [vdot])
  simp only [boxIntersectionTest]
  rw [hqo, hqd, boxSlabLoop_zray]
  dsimp only
  rw [if_pos (by norm_num [EF.le, EF.lt] :
      (EF.le (EF.fin (3/2)) (EF.fin (5/2)) && EF.lt (EF.fin 0) (EF.fin (5/2))) = true)]
  rw [if_neg (by norm_num [EF.le] : ¬ EF.le (EF.fin (3/2)) (EF.fin 0) = true)]
  simp only [EF.toRat]
  have hpt : getPointOnRay ⟨⟨0, 0, -2⟩, ⟨0, 0, 1⟩⟩ (3/2) = (⟨0, 0, -(5001/10000)⟩ : Vec3) := by
    simp only [getPointOnRay]
    rw [glmNormalize_unit _ (by norm_num [vdot])]
    simp only [vadd, vsmul, Vec3.mk.injEq]
    norm_num
  rw [hpt]
  rw [show multiplyMV idGeom.transform (point4 ⟨0, 0, -(5001/10000)⟩) =
      (⟨0, 0, -(5001/10000)⟩ : Vec3) from multiplyMV_id_point _]
  have hlen : glmLength (vsub ⟨0, 0, -2⟩ ⟨0, 0, -(5001/10000)⟩) = 14999/10000 := by
    have hd : vdot (vsub ⟨0, 0, -2⟩ ⟨0, 0, -(5001/10000)⟩)
        (vsub ⟨0, 0, -2⟩ ⟨0, 0, -(5001/10000)⟩) = (14999/10000) * (14999/10000) := by
      norm_num [vsub, vdot]
    rw [glmLength, hd, ratSqrt_mul_self _ (by norm_num)]
  have hnrm : glmNormalize (multiplyMV idGeom.transform (dir4 ⟨0, 0, -1⟩)) =
      (⟨0, 0, -1⟩ : Vec3) := by
    rw [show multiplyMV idGeom.transform (dir4 ⟨0, 0, -1⟩) = (⟨0, 0, -1⟩ : Vec3)
        from multiplyMV_id_dir _]
    exact glmNormalize_unit _ (by norm_num [vdot])
  rw [hlen]
  rw [if_neg (by norm_num [EF.le] : ¬ EF.le (EF.fin (3/2)) (EF.fin 0) = true)]
  rw [hnrm]
  norm_num [EF.le]

/-- C5 counterexample: for the unit box with identity transform and the ray
from (0, 0, -2) along (0, 0, 1), the returned distance is not 1.5 and the
written intersection point is not (0, 0, -0.5): the 0.0001 ray bias of
`getPointOnRay` shifts both. -/
theorem box_testable_point_counterexample :
    (boxIntersectionTest idGeom ⟨⟨0, 0, -2⟩, ⟨0, 0, 1⟩⟩ vzero vzero false).t ≠ 3/2 ∧
    (boxIntersectionTest idGeom ⟨⟨0, 0, -2⟩, ⟨0, 0, 1⟩⟩ vzero vzero false).point ≠
      ⟨0, 0, -(1/2)⟩ := by
  rw [boxHit_zray_eval]
  constructor
  · norm_num
  · intro hc
    rw [Vec3.mk.injEq] at hc
    norm_num at hc

/-- C5 (amended): for the unit box with identity transform and the ray from
(0, 0, -2) along (0, 0, 1), the test returns distance 1.4999 (that is,
1.5 minus the 0.0001 ray bias), writes point (0, 0, -0.5001) and normal
(0, 0, -1), and sets outside = true. -/
theorem box_testable_point_amended :
    boxIntersectionTest idGeom ⟨⟨0, 0, -2⟩, ⟨0, 0, 1⟩⟩ vzero vzero false =
      ⟨14999/10000, ⟨0, 0, -(5001/10000)⟩, ⟨0, 0, -1⟩, true⟩ :=
  boxHit_zray_eval

theorem slabAxis_y_unit :
    slabAxis 1 0 1 slabInit = ⟨EF.fin (-(10^38)), EF.fin (1/2), vzero, ⟨0, -1, 0⟩⟩ := by
  norm_num [slabAxis, slabInit, efDiv, glmMin, glmMax, EF.lt, axisVec, vzero]

theorem slabAxis_z_par_outside :
    slabAxis 2 (-2) 0 ⟨EF.fin (-(10^38)), EF.fin (1/2), vzero, ⟨0, -1, 0⟩⟩ =
      ⟨EF.pinf, EF.fin (1/2), ⟨0, 0, -1⟩, ⟨0, -1, 0⟩⟩ := by
  norm_num [slabAxis, efDiv, glmMin, glmMax, EF.lt, axisVec]

/-- The slab loop on the object-space ray from (0, 0, -2) along (0, 1, 0):
the parallel z-axis takes both quotients to plus infinity, which flows into
tmin. -/
theorem boxSlabLoop_yray :
    boxSlabLoop ⟨0, 0, -2⟩ ⟨0, 1, 0⟩ = ⟨EF.pinf, EF.fin (1/2), ⟨0, 0, -1⟩, ⟨0, -1, 0⟩⟩ := by
  show slabAxis 2 (-2) 0 (slabAxis 1 0 1 (slabAxis 0 0 0 slabInit)) = _
  rw [slabAxis_par_inside, slabAxis_y_unit, slabAxis_z_par_outside]

/-- C8: the slab quotients are computed on every axis with no guard against
a zero direction component: dividing a nonzero numerator by zero yields an
IEEE infinity (NaN for 0/0), and for the axis-parallel ray from (0, 0, -2)
along (0, 1, 0) both z-axis quotients are plus infinity, the infinity flows
into the tmin/tmax interval through the min/max updates, and the decision
still reports the miss -1 through those infinite values. -/
theorem box_division_by_zero_unguarded :
    (∀ a : ℚ, 0 < a → efDiv a 0 = EF.pinf) ∧
    (∀ a : ℚ, a < 0 → efDiv a 0 = EF.ninf) ∧
    efDiv 0 0 = EF.nan ∧
    efDiv (-(1/2) - (-2)) 0 = EF.pinf ∧
    efDiv (1/2 - (-2)) 0 = EF.pinf ∧
    (boxSlabLoop ⟨0, 0, -2⟩ ⟨0, 1, 0⟩).tmin = EF.pinf ∧
    boxIntersectionTest idGeom ⟨⟨0, 0, -2⟩, ⟨0, 1, 0⟩⟩ vzero vzero false =
      ⟨-1, vzero, vzero, false⟩ := by
  refine ⟨?_, ?_, by norm_num [efDiv], by norm_num [efDiv], by norm_num [efDiv],
    by rw [boxSlabLoop_yray], ?_⟩
  · intro a ha
    simp [efDiv, ha]
  · intro a ha
    have h1 : ¬ (0 : ℚ) < a := not_lt.mpr (le_of_lt ha)
    simp [efDiv, h1, ha]
  · have hqo : multiplyMV idGeom.inverseTransform (point4 ⟨0, 0, -2⟩) =
        (⟨0, 0, -2⟩ : Vec3) := multiplyMV_id_point _
    have hqd : glmNormalize (multiplyMV idGeom.inverseTransform (dir4 ⟨0, 1, 0⟩)) =
        (⟨0, 1, 0⟩ : Vec3) := by
      rw [show multiplyMV idGeom.inverseTransform (dir4 ⟨0, 1, 0⟩) = (⟨0, 1, 0⟩ : Vec3)
          from multiplyMV_id_dir _]
      exact glmNormalize_unit _ (by norm_num [vdot])
    simp only [boxIntersectionTest]
    rw [hqo, hqd, boxSlabLoop_yray]
    dsimp only
    rw [if_neg (by norm_num [EF.le, EF.lt] :
        ¬ (EF.le EF.pinf (EF.fin (1/2)) && EF.lt (EF.fin 0) (EF.fin (1/2))) = true)]

/-- Witness for C8's quantified parts: a positive and a negative numerator
divided by zero. -/
theorem box_division_by_zero_unguarded_witness :
    efDiv (3/2) 0 = EF.pinf ∧ efDiv (-(1/2)) 0 = EF.ninf :=
  ⟨box_division_by_zero_unguarded.1 (3/2) (by norm_num),
   box_division_by_zero_unguarded.2.1 (-(1/2)) (by norm_num)⟩
